import Mathlib

/-!
# Verification of the valleytainment.com client-side widgets

A shallow embedding, in Lean 4, of the data model and the operations of the
valleytainment.com repository: the ValleyBot chat widget
(`js/advanced-chatbot.js`), the ValleyImageGenerator widget and its
configuration (source file `part_001`), the inline image-generator helpers and
the `SecurityManager` (source file `part_002`).

Modelling conventions:
* JS strings are Lean `String`; `String.prototype.includes` is substring
  containment on the character list; `toLowerCase` is ASCII case folding.
* `localStorage` values are passed explicitly (`Option String` for raw reads,
  record values for what a function persists); `JSON.parse` is an explicit
  parameter `parseJson : String → Option α`, with `parseJson s = none`
  standing for the `catch` branch on malformed JSON.
* Async functions that can reject are `Except String α`; endpoint failures are
  simulated by an oracle `fails : String → Bool` (endpoint name ↦ whether its
  `try` body throws), following the specification's "simulated as failing".
* Machine timestamps (`Date.now()`, `setSeconds`) are `Nat` parameters.
-/

namespace Valleytainment

/-! ## JS string primitives -/

/-- `matchesFront pat s`: the character list `pat` is an initial segment of
`s`. -/
def matchesFront : List Char → List Char → Bool
  | [], _ => true
  | _ :: _, [] => false
  | p :: ps, c :: cs => p == c && matchesFront ps cs

/-- `occursIn pat s`: the character list `pat` occurs contiguously inside
`s`. -/
def occursIn (pat : List Char) : List Char → Bool
  | [] => pat.isEmpty
  | c :: cs => matchesFront pat (c :: cs) || occursIn pat cs

/-- Model of JS `String.prototype.includes(key)`: `key` occurs as a contiguous
substring of `s`. -/
def jsIncludes (s key : String) : Bool :=
  occursIn key.toList s.toList

/-- Model of JS `String.prototype.toLowerCase()` (ASCII case folding),
computed on the character list. -/
def jsToLower (s : String) : String :=
  String.mk (s.toList.map Char.toLower)

/-- Model of JS `String.prototype.trim()`: strip whitespace from both ends,
computed on the character list. -/
def jsTrim (s : String) : String :=
  String.mk (((s.toList.dropWhile Char.isWhitespace).reverse.dropWhile
    Char.isWhitespace).reverse)

/-! ## Chat widget: canned response strings (`js/advanced-chatbot.js`)

The string constants of `getLocalResponse` (its `responses` object and default
return) and of `getEnhancedResponse` (its `enhancedResponses` object, the four
fallback returns and the default return), verbatim from the source file.
Apostrophes are written `\x27`. -/

def respHello : String :=
  "Hey there! How can I help you with Valleytainment Productions today? üëã"

def respHi : String :=
  "Hello! What can I do for you today? üòä"

def respWhoAreYou : String :=
  "I\x27m ValleyBot 2.0, your AI assistant for all things Valleytainment. I can help with information about our services, team, and upcoming events. ü§ñ"

def respAbout : String :=
  "Valleytainment Productions is a cutting-edge entertainment company specializing in content creation, talent management, and music production with an edgy, vibrant urban aesthetic. Founded in 2018, we\x27ve grown from a small collective of creatives to a full-service production company with a global reach. üé¨üéµ"

def respServices : String :=
  "We offer a wide range of services including content creation, music production, talent management, event production, creative direction, and digital marketing. Each service is tailored to help artists and brands stand out in today\x27s competitive landscape. üé≠üé§"

def respCollab : String :=
  "We\x27re always looking for talented individuals and brands to collaborate with! You can submit your idea through our \"Submit Idea\" form, or contact us directly at info@valleytainment.com to discuss potential collaborations. ü§ù"

def respReleases : String :=
  "Our latest release is \"Neon Dreams\" by Maya Johnson, which dropped last week. We also have upcoming releases from Neon Pulse and DJ Vertex scheduled for next month. Stay tuned to our social media for announcements! üéµüî•"

def respMerch : String :=
  "Check out our merchandise section for the latest Valleytainment apparel and accessories. We have everything from t-shirts and hoodies to limited edition posters and collectibles. üëïüß¢"

def respEvents : String :=
  "We have several upcoming events including the Summer Neon Festival in July and our monthly Underground Sessions at Club Vertex. Visit our events page for tickets and more information. üéâ"

def respContact : String :=
  "You can reach us at info@valleytainment.com or call us at +1 (555) 123-4567. Our office is located at 123 Urban Avenue, Suite 456, Los Angeles, CA 90001. üìû"

def respSocial : String :=
  "Follow us on Instagram, YouTube, TikTok, and Twitter @valleytainment for the latest updates, behind-the-scenes content, and exclusive announcements. üì±"

def localDefaultResponse : String :=
  "I\x27m not sure how to respond to that. Can you try asking something about Valleytainment Productions, our services, or upcoming events? ü§î"

def enhHello : String :=
  "Hey there! üëã Welcome to the Valleytainment vibe! I\x27m ValleyBot 2.0, your digital guide to everything we\x27ve got going on. How can I help you dive into our creative universe today?"

def enhHi : String :=
  "What\x27s up! üòé Great to connect with you. I\x27m ValleyBot 2.0, here to help you navigate the Valleytainment world. Whether you\x27re looking for info on our latest drops, upcoming events, or collaboration opportunities, I\x27ve got you covered!"

def enhWhoAreYou : String :=
  "I\x27m ValleyBot 2.0, the digital brain behind Valleytainment Productions! ü§ñ‚ú® I\x27m here to connect you with our edgy urban universe of content creation, music production, and talent management. Think of me as your backstage pass to everything Valleytainment. What would you like to know about our creative collective?"

def enhAbout : String :=
  "Valleytainment Productions is where creativity meets urban edge! üî• Born in 2018 from a collective of visionary artists, we\x27ve evolved into a powerhouse entertainment company specializing in cutting-edge content creation, music production, and talent management.\n\nOur signature style blends vibrant urban aesthetics with innovative digital techniques, creating content that resonates with today\x27s culture while pushing creative boundaries. From music videos that tell compelling stories to immersive events that bring communities together, we\x27re all about authentic expression and next-level production value.\n\nWhat aspect of Valleytainment would you like to explore further?"

def enhServices : String :=
  "We\x27ve got a full spectrum of creative services to elevate your vision! üöÄ\n\n‚Ä¢ Content Creation: Music videos, short films, documentaries, and digital content with our signature urban aesthetic\n‚Ä¢ Music Production: Full-service studio facilities with award-winning producers and engineers\n‚Ä¢ Talent Management: Career development for artists, producers, and creatives\n‚Ä¢ Event Production: From intimate showcases to major festivals with immersive experiences\n‚Ä¢ Creative Direction: Brand identity, visual storytelling, and campaign development\n‚Ä¢ Digital Marketing: Strategic promotion across platforms to maximize your reach\n\nEach service is customized to amplify your unique voice while maintaining that distinctive Valleytainment edge. What project are you looking to bring to life?"

def enhCollab : String :=
  "We\x27re always on the lookout for fresh talent and innovative ideas to join the Valleytainment universe! üåü Here\x27s how you can get connected:\n\n1. Submit your concept through our \"Submit Idea\" form on the website - we review every submission\n2. Email your portfolio/demo to collabs@valleytainment.com with a brief intro\n3. Attend our monthly \"Open Studio\" sessions where you can network with our team (check the Events page for dates)\n4. Follow and engage with us on social media - we often discover collaborators through authentic interactions\n\nWe\x27re particularly interested in creators who bring unique perspectives and aren\x27t afraid to push boundaries. What kind of collaboration did you have in mind?"

def enhReleases : String :=
  "Our studio has been on fire lately! üéµüî• Here\x27s what\x27s fresh from the Valleytainment sound lab:\n\n‚Ä¢ \"Neon Dreams\" by Maya Johnson - Released last week, this EP blends neo-soul with electronic elements for a hypnotic vibe\n‚Ä¢ \"Urban Pulse\" compilation - A showcase of our roster\x27s diverse talents across hip-hop, R&B, and experimental genres\n‚Ä¢ Coming Soon: Neon Pulse\x27s debut album \"Digital Heartbeat\" drops next month\n‚Ä¢ Coming Soon: DJ Vertex\x27s \"Late Night Frequencies\" mixtape featuring exclusive collaborations\n\nAll releases are available on major streaming platforms. The \"Neon Dreams\" vinyl limited edition is also available in our merch store. Which sound are you vibing with?"

def enhMerch : String :=
  "Our merch game is strong right now! üëïüß¢ The current collection features:\n\n‚Ä¢ \"Urban Glow\" tees and hoodies with reflective neon prints\n‚Ä¢ Limited edition artist collaboration pieces with original artwork\n‚Ä¢ Accessories including caps, beanies, and phone cases with our signature aesthetic\n‚Ä¢ Collector\x27s items like vinyl records, art prints, and exclusive box sets\n\nEverything is produced in limited quantities with sustainable materials where possible. The online store offers worldwide shipping, or you can check out our pop-up shop at monthly events. Members of our Valley Club get early access and exclusive drops not available to the general public. Want me to send you the link to our latest collection?"

def enhEvents : String :=
  "We\x27ve got a packed calendar of events coming up! üéâ\n\n‚Ä¢ Summer Neon Festival (July 15-17) - Our annual three-day celebration of music, art, and culture at Riverside Park\n‚Ä¢ Underground Sessions (Last Friday monthly) - Intimate showcases at Club Vertex featuring emerging artists\n‚Ä¢ Producer Workshop Series (Every second Saturday) - Hands-on production masterclasses with our in-house team\n‚Ä¢ \"Visual Beats\" Exhibition (August 5-20) - A multimedia installation exploring the intersection of music and visual art\n\nTickets for all events are available on our website, with early bird pricing ending two weeks before each event. The Underground Sessions tend to sell out quickly, so I\x27d recommend grabbing those tickets early! Which event catches your interest?"

def enhContact : String :=
  "Ready to connect with the Valleytainment team? Here\x27s how to reach us:\n\nüìß General Inquiries: info@valleytainment.com\nüìß Collaboration Requests: collabs@valleytainment.com\nüìß Press & Media: press@valleytainment.com\nüìû Office: +1 (555) 123-4567\nüìç Studio & Office: 123 Urban Avenue, Suite 456, Los Angeles, CA 90001\n\nOur office hours are Monday-Friday, 10am-6pm PT. The best way to get a quick response is via email, but feel free to call for urgent matters. If you\x27re looking to visit the studio, appointments are required and can be scheduled through our website. Anything specific you\x27d like to reach out about?"

def enhSocial : String :=
  "Stay connected with all things Valleytainment across our social platforms! üì±‚ú®\n\n‚Ä¢ Instagram (@valleytainment): Daily content, behind-the-scenes, and artist spotlights\n‚Ä¢ YouTube (Valleytainment Official): Music videos, interviews, and studio sessions\n‚Ä¢ TikTok (@valleytainment): Trending challenges, quick tips, and viral moments\n‚Ä¢ Twitter (@valleytainment): Real-time updates, announcements, and community engagement\n‚Ä¢ Discord (Valleytainment Community): Our most active platform for direct interaction with the team\n\nWe post exclusive content on each platform, so it\x27s worth following us everywhere! Our Discord server hosts weekly AMAs with team members and artists. Which platform do you prefer to connect on?"

def enhPricing : String :=
  "Our pricing varies based on project scope and requirements. For content creation, we offer packages starting at $2,500 for basic video production, while full-scale music production typically ranges from $5,000-15,000 depending on complexity. For detailed pricing on specific services, I\x27d recommend reaching out to our team at info@valleytainment.com with your project details so we can provide an accurate quote tailored to your needs. üí∞"

def enhLocation : String :=
  "Valleytainment Productions is headquartered in Los Angeles, California. Our main studio and office space is located at 123 Urban Avenue in downtown LA, with satellite locations in Atlanta and New York. We work with clients and collaborators worldwide, with much of our team able to work remotely when needed. Are you looking to visit one of our locations? üåé"

def enhTeam : String :=
  "The Valleytainment team is a diverse collective of creative professionals! üåü Our core team includes:\n\n‚Ä¢ Alex Rivera - Founder & Creative Director\n‚Ä¢ Maya Johnson - Head of Music Production\n‚Ä¢ Jamal Williams - Director of Visual Content\n‚Ä¢ Sophia Chen - Talent Manager\n‚Ä¢ Marcus Lee - Events Coordinator\n‚Ä¢ Taylor Kim - Digital Marketing Strategist\n\nWe also work with a network of freelance specialists including videographers, photographers, sound engineers, graphic designers, and more. Each team member brings their unique perspective and expertise to create our signature Valleytainment style. Is there a particular department you\x27d like to know more about?"

def enhHistoryResp : String :=
  "Valleytainment\x27s story began in 2018 when founder Alex Rivera, then a music video director, joined forces with producer Maya Johnson to create content that truly represented urban culture with authenticity and artistic vision. üöÄ\n\nWhat started as a two-person operation in a converted garage studio quickly gained attention for its distinctive visual style and sound. By 2020, they had expanded to a full team and moved into our current studio space in downtown LA.\n\nKey milestones include our breakthrough project with indie artist Neon Pulse in 2021, launching our talent management division in 2022, and our first Summer Neon Festival in 2023, which has now become our signature annual event. Throughout our growth, we\x27ve maintained our commitment to pushing creative boundaries while amplifying diverse voices in entertainment."

def enhancedDefaultResponse : String :=
  "Thanks for reaching out to Valleytainment Productions! üåü I\x27m not quite sure what you\x27re asking about, but I\x27d be happy to tell you about our creative services, upcoming events, artist collaborations, or merchandise. You can also check out our portfolio of work or learn how to submit your ideas for potential collaboration. What aspect of Valleytainment are you most interested in exploring?"

/-- The ordered `(keyword, response)` table of `getLocalResponse`
(`Object.entries` of its `responses` literal, in insertion order). -/
def localResponses : List (String × String) :=
  [("hello", respHello),
   ("hi", respHi),
   ("who are you", respWhoAreYou),
   ("tell me about valleytainment", respAbout),
   ("what services do you offer", respServices),
   ("how can i collaborate", respCollab),
   ("latest music releases", respReleases),
   ("merchandise", respMerch),
   ("events", respEvents),
   ("contact", respContact),
   ("social media", respSocial)]

/-- The ordered `(keyword, response)` table of `getEnhancedResponse`
(`Object.entries` of its `enhancedResponses` literal, in insertion order). -/
def enhancedResponsesTable : List (String × String) :=
  [("hello", enhHello),
   ("hi", enhHi),
   ("who are you", enhWhoAreYou),
   ("tell me about valleytainment", enhAbout),
   ("what services do you offer", enhServices),
   ("how can i collaborate", enhCollab),
   ("latest music releases", enhReleases),
   ("merchandise", enhMerch),
   ("events", enhEvents),
   ("contact", enhContact),
   ("social media", enhSocial)]

/-- The `for (const [key, value] of Object.entries(responses))` loop shared by
`getLocalResponse` and `getEnhancedResponse`: return the first `value` whose
`key` is contained in `lowerMessage`, else fall through (`none`). -/
def scanResponses : List (String × String) → String → Option String
  | [], _ => none
  | (key, value) :: rest, lowerMessage =>
    if jsIncludes lowerMessage key then some value else scanResponses rest lowerMessage

/-- `ValleyBot.getLocalResponse`: lowercase the message, scan the table,
default when nothing matches. -/
def getLocalResponse (message : String) : String :=
  let lowerMessage := jsToLower message
  match scanResponses localResponses lowerMessage with
  | some value => value
  | none => localDefaultResponse

/-- `ValleyBot.getEnhancedResponse`: lowercase the message, scan the
`enhancedResponses` table, then the four keyword-group fallbacks, then the
default. -/
def getEnhancedResponse (message : String) : String :=
  let lowerMessage := jsToLower message
  match scanResponses enhancedResponsesTable lowerMessage with
  | some value => value
  | none =>
    if jsIncludes lowerMessage "price" || jsIncludes lowerMessage "cost" ||
        jsIncludes lowerMessage "how much" then enhPricing
    else if jsIncludes lowerMessage "location" || jsIncludes lowerMessage "where are you" ||
        jsIncludes lowerMessage "where is" then enhLocation
    else if jsIncludes lowerMessage "team" || jsIncludes lowerMessage "staff" ||
        jsIncludes lowerMessage "who works" then enhTeam
    else if jsIncludes lowerMessage "history" || jsIncludes lowerMessage "started" ||
        jsIncludes lowerMessage "founded" then enhHistoryResp
    else enhancedDefaultResponse

/-- The whole keyword table realized by `getEnhancedResponse`: the
`enhancedResponses` entries followed by the four keyword-group fallbacks, in
scan order. -/
def enhancedKeywordTable : List (String × String) :=
  enhancedResponsesTable ++
  [("price", enhPricing), ("cost", enhPricing), ("how much", enhPricing),
   ("location", enhLocation), ("where are you", enhLocation), ("where is", enhLocation),
   ("team", enhTeam), ("staff", enhTeam), ("who works", enhTeam),
   ("history", enhHistoryResp), ("started", enhHistoryResp), ("founded", enhHistoryResp)]

/-! ## Chat widget: API endpoints and reply pipeline -/

/-- One entry of `CHATBOT_CONFIG.api.endpoints`. -/
structure ChatEndpoint where
  name : String
  url : String
  priority : Nat
deriving DecidableEq

/-- `CHATBOT_CONFIG.api.endpoints`, in literal order. -/
def chatApiEndpoints : List ChatEndpoint :=
  [⟨"huggingface", "https://api-inference.huggingface.co/models/mistralai/Mixtral-8x7B-Instruct-v0.1", 1⟩,
   ⟨"openai-compatible", "https://api.together.xyz/v1/chat/completions", 2⟩,
   ⟨"local", "/api/chat", 3⟩]

/-- `CHATBOT_CONFIG.api.useLocalFallback`. -/
def chatUseLocalFallback : Bool := true

/-- Stable insertion step for the `[...].sort((a, b) => a.priority - b.priority)`
copy-and-sort in `fetchAIResponse`. -/
def insertChatEndpoint (e : ChatEndpoint) : List ChatEndpoint → List ChatEndpoint
  | [] => [e]
  | f :: rest =>
    if e.priority ≤ f.priority then e :: f :: rest else f :: insertChatEndpoint e rest

/-- Stable sort of chat endpoints by ascending `priority`. -/
def sortChatEndpoints : List ChatEndpoint → List ChatEndpoint
  | [] => []
  | e :: rest => insertChatEndpoint e (sortChatEndpoints rest)

/-- The `for (const endpoint of endpoints)` loop of
`ValleyBot.fetchAIResponse`: each iteration's `try` body awaits an artificial
`setTimeout` delay (pure timing, no failure) and then unconditionally
`return this.getEnhancedResponse(message)`; the commented-out real `fetch`
never runs. With an empty endpoint list the loop exits and the function throws
`'All API endpoints failed'`. -/
def tryChatEndpoints (message : String) : List ChatEndpoint → Except String String
  | [] => .error "All API endpoints failed"
  | _ :: _ => .ok (getEnhancedResponse message)

/-- `ValleyBot.fetchAIResponse`: sort a copy of the configured endpoints by
priority, then run the endpoint loop. -/
def fetchAIResponse (message : String) : Except String String :=
  tryChatEndpoints message (sortChatEndpoints chatApiEndpoints)

/-! ## Chat widget: message history (`ChatMessage` data model) -/

/-- One element of `this.chatHistory` as pushed by `addUserMessage` /
`addBotMessage`: `\x7brole, content, timestamp\x7d`. -/
structure ChatMessage where
  role : String
  content : String
  timestamp : String
deriving DecidableEq

/-- `CHATBOT_CONFIG.ui.maxHistoryItems`. -/
def chatMaxHistoryItems : Nat := 50

/-- `ValleyBot.saveChatHistory`: if the history exceeds
`config.ui.maxHistoryItems` it is replaced by `chatHistory.slice(-max)` (the
last `max` elements); the returned list is both the new `this.chatHistory` and
the JSON array persisted under the `'valleybot_chat_history'` storage key. -/
def saveChatHistory (chatHistory : List ChatMessage) : List ChatMessage :=
  if chatHistory.length > chatMaxHistoryItems then
    chatHistory.drop (chatHistory.length - chatMaxHistoryItems)
  else chatHistory

/-- The history effect of `ValleyBot.addUserMessage`: push
`\x7brole: 'user', content, timestamp\x7d` at the end, then `saveChatHistory`. -/
def addUserMessage (chatHistory : List ChatMessage) (message timestamp : String) :
    List ChatMessage :=
  saveChatHistory (chatHistory ++ [⟨"user", message, timestamp⟩])

/-- The history effect of `ValleyBot.addBotMessage`: push
`\x7brole: 'assistant', content, timestamp\x7d` at the end, then
`saveChatHistory`. -/
def addBotMessage (chatHistory : List ChatMessage) (message timestamp : String) :
    List ChatMessage :=
  saveChatHistory (chatHistory ++ [⟨"assistant", message, timestamp⟩])

/-- `ValleyBot.loadChatHistory`: read the `'valleybot_chat_history'` key; when
the stored value is truthy (present and non-empty), `JSON.parse` it — on a
parse error the `catch` branch resets `this.chatHistory` to `[]`; when the key
is absent or empty the constructor-initialized history (`current`) is kept.
`parseJson` is the explicit model of `JSON.parse`, `none` meaning it throws. -/
def loadChatHistory (parseJson : String → Option (List ChatMessage))
    (savedHistory : Option String) (current : List ChatMessage) : List ChatMessage :=
  match savedHistory with
  | none => current
  | some s =>
    if s = "" then current
    else
      match parseJson s with
      | some parsed => parsed
      | none => []

/-! ## Chat widget: message rendering and the `getBotResponse` pipeline

`getBotResponse`'s `try` block runs `await fetchAIResponse(message)` and then
`this.addBotMessage(response)`; the `catch` covers both. `addBotMessage`
renders the message into the main chat (`addMessageToChat`, guarded by
`if (!this.chatMessages) return`) and into the popup chat when
`this.chatbotPopup.querySelector('.chat-messages')` finds one, each render
going through `processMessageText` — and only then pushes to `chatHistory`
and calls `saveChatHistory`. -/

/-- `CHATBOT_CONFIG.personality.emoji`. -/
def chatEmojiEnabled : Bool := true

/-- The `emojiMap` literal of `processMessageText`, in insertion order
(`Object.entries` order). -/
def emojiMap : List (String × String) :=
  [(":)", "üòä"),
   (":(", "üòî"),
   (":D", "üòÅ"),
   (";)", "üòâ"),
   (":P", "üòõ"),
   ("<3", "‚ù§Ô∏è"),
   (":music:", "üéµ"),
   (":mic:", "üé§"),
   (":fire:", "üî•"),
   (":star:", "‚≠ê"),
   (":bulb:", "üí°")]

/-- Parenthesis-balance check on a pattern's characters (`depth` open groups
so far). -/
def regExpParensOk : List Char → Nat → Bool
  | [], depth => depth = 0
  | c :: rest, depth =>
    if c = Char.ofNat 40 then regExpParensOk rest (depth + 1)
    else if c = Char.ofNat 41 then 0 < depth && regExpParensOk rest (depth - 1)
    else regExpParensOk rest depth

/-- The syntax check performed by `new RegExp(pattern)`, restricted to the
simple patterns appearing in `emojiMap` (no escapes, character classes or
quantifier braces): such a pattern is syntactically invalid exactly when its
parentheses are unbalanced, and constructing the `RegExp` then throws a
`SyntaxError` — in particular `new RegExp(':)', 'g')` throws (unmatched
closing parenthesis), as does `':('` (unterminated group). -/
def jsRegExpSyntaxBad (pattern : String) : Bool :=
  ! regExpParensOk pattern.toList 0

/-- The `for (const [shortcode, emoji] of Object.entries(emojiMap))` loop of
`processMessageText`: each iteration evaluates
`text.replace(new RegExp(shortcode, 'g'), emoji)` — the `RegExp` constructor
throws on a syntactically invalid shortcode before any replacement happens;
a valid shortcode (none contains regex metacharacters other than the broken
parentheses) replaces every literal occurrence. -/
def replaceEmojiShortcodes : List (String × String) → String → Except String String
  | [], text => .ok text
  | (shortcode, emoji) :: rest, text =>
    if jsRegExpSyntaxBad shortcode then
      .error "SyntaxError: Invalid regular expression"
    else replaceEmojiShortcodes rest (text.replace shortcode emoji)

/-- `ValleyBot.processMessageText`: the URL, email, phone and markdown
substitutions use regular-expression *literals* (compiled at script parse
time, always valid, never throwing) and are modelled by the oracle
`formatLinks`; the final emoji pass then runs the shortcode loop when
`config.personality.emoji` is set. -/
def processMessageText (formatLinks : String → String) (emoji : Bool)
    (text : String) : Except String String :=
  let text := formatLinks text
  if emoji then replaceEmojiShortcodes emojiMap text else .ok text

/-- Which chat containers the DOM currently offers: whether
`this.chatMessages` (the `'chat-messages'` element) exists, and whether
`this.chatbotPopup.querySelector('.chat-messages')` finds a popup chat list.
(The popup container itself is assumed present, as `init` wires it; were it
`null`, the `querySelector` call would itself throw a `TypeError` — one more
throw path, not needed below.) -/
structure ChatDom where
  chatMessagesPresent : Bool
  popupChatMessagesPresent : Bool
deriving DecidableEq

/-- `ValleyBot.addBotMessage`, including rendering: render into the main chat
when present (`addMessageToChat` → `addMessageToElement`, which computes
`this.processMessageText(message)` for the bubble's `innerHTML`), render into
the popup chat when present, and only afterwards push
`\x7brole: 'assistant', content, timestamp\x7d` and `saveChatHistory` (the
pure history effect `addBotMessage`). Any throw from `processMessageText`
escapes `addBotMessage` before the history is touched. -/
def addBotMessageRendered (formatLinks : String → String) (dom : ChatDom)
    (chatHistory : List ChatMessage) (message timestamp : String) :
    Except String (List ChatMessage) :=
  (if dom.chatMessagesPresent then
      (processMessageText formatLinks chatEmojiEnabled message).map fun _ => ()
    else .ok ()).bind fun _ =>
  (if dom.popupChatMessagesPresent then
      (processMessageText formatLinks chatEmojiEnabled message).map fun _ => ()
    else .ok ()).bind fun _ =>
  .ok (addBotMessage chatHistory message timestamp)

/-- The observable outcome of one `ValleyBot.getBotResponse` call. -/
inductive BotResponseOutcome where
  /-- The `try` block completed: the fetched reply was appended. -/
  | replied (newHistory : List ChatMessage)
  /-- The `catch` branch ran with `config.api.useLocalFallback` set:
  `getLocalResponse(message)` was computed (recorded here) and handed to
  `addBotMessage`, whose own result — the new history, or a rethrown
  exception — is recorded alongside. -/
  | fallbackTaken (localResponse : String) (result : Except String (List ChatMessage))
  /-- The `catch` branch ran with the fallback disabled: the hard-coded
  apology was handed to `addBotMessage`. -/
  | apologyTaken (result : Except String (List ChatMessage))

/-- `ValleyBot.getBotResponse`: the `try` block awaits `fetchAIResponse` and
then runs `addBotMessage(response)`; the `catch` covers both and, when
`config.api.useLocalFallback` is set, computes `getLocalResponse(message)`
and passes it to `addBotMessage` (whose exceptions propagate out of the
`catch`), else appends the apology string. -/
def getBotResponse (formatLinks : String → String) (dom : ChatDom)
    (chatHistory : List ChatMessage) (message timestamp : String) :
    BotResponseOutcome :=
  match (fetchAIResponse message).bind (fun response =>
      addBotMessageRendered formatLinks dom chatHistory response timestamp) with
  | .ok newHistory => .replied newHistory
  | .error _ =>
    if chatUseLocalFallback then
      .fallbackTaken (getLocalResponse message)
        (addBotMessageRendered formatLinks dom chatHistory
          (getLocalResponse message) timestamp)
    else
      .apologyTaken (addBotMessageRendered formatLinks dom chatHistory
        "Sorry, I\x27m having trouble connecting right now. Please try again later."
        timestamp)

/-! ## Image generator widget (`ValleyImageGenerator`, source file `part_001`) -/

/-- One element of `this.generationHistory` as built by
`ValleyImageGenerator.addToHistory`:
`\x7bprompt, imageUrl, style, timestamp\x7d`. -/
structure ImageHistoryEntry where
  prompt : String
  imageUrl : String
  style : String
  timestamp : String
deriving DecidableEq

/-- `IMAGE_GENERATOR_CONFIG.generator.maxHistoryItems`. -/
def imageMaxHistoryItems : Nat := 10

/-- `IMAGE_GENERATOR_CONFIG.generator.maxPromptLength`. -/
def maxPromptLength : Nat := 1000

/-- `ValleyImageGenerator.addToHistory`: `unshift` the new
`\x7bprompt, imageUrl, style, timestamp\x7d` item at the front, then truncate
with `slice(0, maxHistoryItems)` (keep the first `max` elements) when the
length exceeds the cap; the result is persisted whole under
`'valleytainment_image_history'` by `saveGenerationHistory`. -/
def addToHistory (generationHistory : List ImageHistoryEntry)
    (prompt imageUrl style timestamp : String) : List ImageHistoryEntry :=
  let withItem := ImageHistoryEntry.mk prompt imageUrl style timestamp :: generationHistory
  if withItem.length > imageMaxHistoryItems then withItem.take imageMaxHistoryItems
  else withItem

/-- `ValleyImageGenerator.loadGenerationHistory`: read
`'valleytainment_image_history'`; when the stored value is truthy,
`JSON.parse` it with the `catch` branch resetting to `[]`; when absent or
empty the `else` branch sets `this.generationHistory = []` outright. -/
def loadGenerationHistory (parseJson : String → Option (List ImageHistoryEntry))
    (savedHistory : Option String) : List ImageHistoryEntry :=
  match savedHistory with
  | none => []
  | some s =>
    if s = "" then []
    else
      match parseJson s with
      | some parsed => parsed
      | none => []

/-- The observable result of one synchronous entry into
`ValleyImageGenerator.generateImage`. -/
inductive GenCallResult where
  /-- An early `return` after `showError(message)`. -/
  | errorShown (message : String)
  /-- The bare `return` of the `if (this.isGenerating)` guard. -/
  | ignoredBusy
  /-- Validation and the guard passed: the widget entered the `try` block and
  a generation (an awaited `fetchGeneratedImage` call) was started for the
  trimmed prompt. -/
  | started (prompt : String)
deriving DecidableEq

/-- The widget state read or written by the synchronous prefix of
`generateImage`: the `isGenerating` re-entry flag, the generation history and
the `analytics.totalGenerations` counter. -/
structure GenWidgetState where
  isGenerating : Bool
  generationHistory : List ImageHistoryEntry
  totalGenerations : Nat
deriving DecidableEq

/-- The synchronous prefix of `ValleyImageGenerator.generateImage`, up to the
point where the asynchronous `fetchGeneratedImage` is started: trim the prompt
input, reject an empty prompt with `showError`, reject an over-long prompt with
`showError`, ignore the call while `this.isGenerating` is set, and otherwise
set the flag and start a generation. While a started generation is pending the
`isGenerating` flag stays `true`; the `finally` block clears it only when the
awaited generation settles. -/
def generateImageEntry (promptInputValue : String) (s : GenWidgetState) :
    GenWidgetState × GenCallResult :=
  let prompt := jsTrim promptInputValue
  if prompt = "" then
    (s, .errorShown "Please enter a prompt to generate an image.")
  else if prompt.length > maxPromptLength then
    (s, .errorShown ("Prompt is too long. Maximum length is " ++
      toString maxPromptLength ++ " characters."))
  else if s.isGenerating then
    (s, .ignoredBusy)
  else
    ({ s with isGenerating := true }, .started prompt)

/-! ## Image generator widget: endpoint chain (`fetchGeneratedImage`) -/

/-- One entry of `IMAGE_GENERATOR_CONFIG.api.endpoints`; `paramsNologo` models
the optional `params.nologo` field (present and `true` only for
`pollinations`). -/
structure ApiEndpoint where
  name : String
  url : String
  priority : Nat
  paramsNologo : Bool
deriving DecidableEq

/-- The first entry of `IMAGE_GENERATOR_CONFIG.api.endpoints`: the
`pollinations` endpoint, priority 1, with `params.nologo = true`. -/
def pollinationsEndpoint : ApiEndpoint :=
  ⟨"pollinations", "https://image.pollinations.ai/prompt/", 1, true⟩

/-- `IMAGE_GENERATOR_CONFIG.api.endpoints`, in literal order. Note: no entry
is named `'local'`. -/
def imageApiEndpoints : List ApiEndpoint :=
  [pollinationsEndpoint,
   ⟨"stability", "https://api.stability.ai/v1/generation/stable-diffusion-xl-1024-v1-0/text-to-image", 2, false⟩,
   ⟨"huggingface", "https://api-inference.huggingface.co/models/stabilityai/stable-diffusion-xl-base-1.0", 3, false⟩]

/-- `IMAGE_GENERATOR_CONFIG.api.useLocalFallback`. -/
def imageUseLocalFallback : Bool := true

/-- Stable insertion step for the `[...].sort((a, b) => a.priority - b.priority)`
copy-and-sort in `fetchGeneratedImage`. -/
def insertApiEndpoint (e : ApiEndpoint) : List ApiEndpoint → List ApiEndpoint
  | [] => [e]
  | f :: rest =>
    if e.priority ≤ f.priority then e :: f :: rest else f :: insertApiEndpoint e rest

/-- Stable sort of image endpoints by ascending `priority`. -/
def sortApiEndpoints : List ApiEndpoint → List ApiEndpoint
  | [] => []
  | e :: rest => insertApiEndpoint e (sortApiEndpoints rest)

/-- Hexadecimal digit (uppercase) for percent-encoding. -/
def hexDigit (n : Nat) : Char :=
  if n < 10 then Char.ofNat (48 + n) else Char.ofNat (55 + n)

/-- UTF-8 bytes of one character, for percent-encoding. -/
def utf8Bytes (c : Char) : List Nat :=
  let n := c.toNat
  if n < 128 then [n]
  else if n < 2048 then [192 + n / 64, 128 + n % 64]
  else if n < 65536 then [224 + n / 4096, 128 + n / 64 % 64, 128 + n % 64]
  else [240 + n / 262144, 128 + n / 4096 % 64, 128 + n / 64 % 64, 128 + n % 64]

/-- The characters that JS `encodeURIComponent` leaves unescaped: ASCII
alphanumerics and `- _ . ! ~ *` and the apostrophe and parentheses. -/
def isUnescapedUriChar (c : Char) : Bool :=
  (c.isAlpha && c.toNat < 128) || c.isDigit ||
  c ∈ [Char.ofNat 45, Char.ofNat 95, Char.ofNat 46, Char.ofNat 33,
       Char.ofNat 126, Char.ofNat 42, Char.ofNat 39, Char.ofNat 40, Char.ofNat 41]

/-- Model of JS `encodeURIComponent`: keep unescaped characters, percent-encode
the UTF-8 bytes of every other character. -/
def encodeURIComponent (s : String) : String :=
  String.mk (s.toList.flatMap fun c =>
    if isUnescapedUriChar c then [c]
    else (utf8Bytes c).flatMap fun b => [Char.ofNat 37, hexDigit (b / 16), hexDigit (b % 16)])

/-- The URL built by the `pollinations` branch of `fetchGeneratedImage`:
`endpoint.url + encodeURIComponent(prompt)`, then `?width=..&height=..` when
both dimensions are truthy (non-zero), then `nologo=true` when
`endpoint.params.nologo` is set, then the cache-busting `t=Date.now()`, each
separated by `?` or `&` according to `url.includes('?')`. -/
def pollinationsRequestUrl (endpoint : ApiEndpoint) (prompt : String)
    (width height timestamp : Nat) : String :=
  let encodedPrompt := encodeURIComponent prompt
  let url := endpoint.url ++ encodedPrompt
  let url :=
    if width ≠ 0 ∧ height ≠ 0 then
      url ++ "?width=" ++ toString width ++ "&height=" ++ toString height
    else url
  let url :=
    if endpoint.paramsNologo then
      if jsIncludes url "?" then url ++ "&nologo=true" else url ++ "?nologo=true"
    else url
  if jsIncludes url "?" then url ++ "&t=" ++ toString timestamp
  else url ++ "?t=" ++ toString timestamp

/-- The `for (const endpoint of endpoints)` loop of
`ValleyImageGenerator.fetchGeneratedImage`. `fails` is the failure-simulation
oracle: `fails name = true` means the endpoint's `try` body throws, which the
`catch` turns into a `continue`. The `pollinations` branch returns the
constructed URL; the `stability` / `huggingface` bodies are commented out, so
those iterations fall through; the `local` branch (guarded by
`config.api.useLocalFallback`) would return the canvas data URL
`localImageDataUrl` produced by `generateLocalImage` (host canvas rendering,
abstracted as a parameter); an exhausted list throws. -/
def tryImageEndpoints (fails : String → Bool) (prompt : String)
    (width height timestamp : Nat) (localImageDataUrl : String) :
    List ApiEndpoint → Except String String
  | [] => .error "All image generation endpoints failed"
  | e :: rest =>
    if e.name = "pollinations" then
      if fails e.name then tryImageEndpoints fails prompt width height timestamp localImageDataUrl rest
      else .ok (pollinationsRequestUrl e prompt width height timestamp)
    else if e.name = "local" && imageUseLocalFallback then
      if fails e.name then tryImageEndpoints fails prompt width height timestamp localImageDataUrl rest
      else .ok localImageDataUrl
    else tryImageEndpoints fails prompt width height timestamp localImageDataUrl rest

/-- `ValleyImageGenerator.fetchGeneratedImage`: sort a copy of the configured
endpoints by priority and run the endpoint loop (the `negativePrompt` argument
is only used by the commented-out API calls and is omitted). -/
def fetchGeneratedImage (fails : String → Bool) (prompt : String)
    (width height timestamp : Nat) (localImageDataUrl : String) : Except String String :=
  tryImageEndpoints fails prompt width height timestamp localImageDataUrl
    (sortApiEndpoints imageApiEndpoints)

/-! ## Inline image-generator helpers (source file `part_002`) -/

/-- One element of the module-scope `imageHistory` array as built by
`addToImageHistory`: `\x7bimageUrl, prompt, style, size, timestamp\x7d`. -/
structure InlineImageHistoryItem where
  imageUrl : String
  prompt : String
  style : String
  size : String
  timestamp : String
deriving DecidableEq

/-- `imageGeneratorConfig.maxHistory`. -/
def inlineMaxHistory : Nat := 10

/-- `addToImageHistory` (source file `part_002`): `unshift` the new item at the
front, then `pop()` one item off the end when the length exceeds
`imageGeneratorConfig.maxHistory`; the result is persisted whole under
`'valleytainment_image_history'` by `saveImageHistory`. -/
def addToImageHistory (imageHistory : List InlineImageHistoryItem)
    (imageUrl prompt style size timestamp : String) : List InlineImageHistoryItem :=
  let withItem := InlineImageHistoryItem.mk imageUrl prompt style size timestamp :: imageHistory
  if withItem.length > inlineMaxHistory then withItem.dropLast else withItem

/-! ## SecurityManager (source file `part_002`) -/

/-- The JSON object persisted under `'valleytainment_security_block'` by
`SecurityManager.blockUser`: `\x7bblocked: true, expiry\x7d` (the expiry is an
absolute timestamp, modelled in seconds). -/
structure SecurityBlockRecord where
  blocked : Bool
  expiry : Nat
deriving DecidableEq

/-- The block-related state of a `SecurityManager` instance. -/
structure SecurityState where
  isBlocked : Bool
  blockExpiry : Option Nat
  suspiciousActivityCount : Nat
deriving DecidableEq

/-- `SECURITY_CONFIG.activityMonitoring.blockDuration` (seconds). -/
def blockDuration : Nat := 300

/-- `SECURITY_CONFIG.activityMonitoring.blockThreshold`: the count of
suspicious activities past which `blockUser` is invoked. -/
def blockThreshold : Nat := 10

/-- The state set by the `SecurityManager` constructor:
`isBlocked = false`, `blockExpiry = null`, no recorded activities. -/
def securityInitialState : SecurityState :=
  { isBlocked := false, blockExpiry := none, suspiciousActivityCount := 0 }

/-- `SecurityManager.blockUser` (invoked once `suspiciousActivities.length`
reaches `blockThreshold`): set `isBlocked`, set `blockExpiry` to
`now + blockDuration`, and persist `\x7bblocked: true, expiry\x7d` under
`'valleytainment_security_block'`. Returns the new state and the persisted
record. -/
def blockUser (now : Nat) (s : SecurityState) : SecurityState × SecurityBlockRecord :=
  let expiry := now + blockDuration
  ({ s with isBlocked := true, blockExpiry := some expiry }, ⟨true, expiry⟩)

/-- The block state of a `SecurityManager` after a page reload: the
constructor resets every field and `init()` (CSP, headers, XSS, CSRF, form
validation, activity monitoring, data protection) contains no read of the
`'valleytainment_security_block'` storage key, so whatever record is in
storage (`storedBlock`) is ignored and the fresh instance starts from
`securityInitialState`. -/
def securityManagerOnLoad (_storedBlock : Option SecurityBlockRecord) : SecurityState :=
  securityInitialState


/-! # Helper lemmas -/

theorem scanResponses_append_some {l₁ : List (String × String)} {s v : String}
    (l₂ : List (String × String)) (h : scanResponses l₁ s = some v) :
    scanResponses (l₁ ++ l₂) s = some v := by
  induction l₁ with
  | nil => simp [scanResponses] at h
  | cons p rest ih =>
    obtain ⟨k, r⟩ := p
    cases hk : jsIncludes s k <;> simp [scanResponses, hk] at h ⊢
    · exact ih h
    · exact h

theorem scanResponses_append_none {l₁ : List (String × String)} {s : String}
    (l₂ : List (String × String)) (h : scanResponses l₁ s = none) :
    scanResponses (l₁ ++ l₂) s = scanResponses l₂ s := by
  induction l₁ with
  | nil => simp [scanResponses]
  | cons p rest ih =>
    obtain ⟨k, r⟩ := p
    cases hk : jsIncludes s k <;> simp [scanResponses, hk] at h ⊢
    exact ih h

theorem getD_if3 (a b c : Bool) (v d : String) (o : Option String) :
    (if a then some v else if b then some v else if c then some v else o).getD d
      = if a || b || c then v else o.getD d := by
  cases a <;> cases b <;> cases c <;> simp

theorem scanResponses_eq_find (table : List (String × String)) (s : String) :
    scanResponses table s = (table.find? fun p => jsIncludes s p.1).map Prod.snd := by
  induction table with
  | nil => simp [scanResponses]
  | cons p rest ih =>
    obtain ⟨k, r⟩ := p
    cases hk : jsIncludes s k <;> simp [scanResponses, hk, List.find?, ih]

theorem occursIn_singleton {c : Char} {l : List Char} (h : c ∈ l) :
    occursIn [c] l = true := by
  induction l with
  | nil => cases h
  | cons d rest ih =>
    rcases List.mem_cons.mp h with h | h
    · subst h
      simp [occursIn, matchesFront]
    · simp [occursIn, ih h]

theorem jsIncludes_questionmark {s : String} (h : (Char.ofNat 63) ∈ s.toList) :
    jsIncludes s "?" = true := by
  have : ("?" : String).toList = [Char.ofNat 63] := rfl
  rw [jsIncludes, this]
  exact occursIn_singleton h

theorem saveChatHistory_length (l : List ChatMessage) :
    (saveChatHistory l).length ≤ chatMaxHistoryItems := by
  rw [saveChatHistory]
  split
  · simp only [List.length_drop]
    omega
  · omega

theorem addToImageHistory_length {h : List InlineImageHistoryItem}
    (hle : h.length ≤ inlineMaxHistory) (u p st sz ts : String) :
    (addToImageHistory h u p st sz ts).length ≤ inlineMaxHistory := by
  rw [addToImageHistory]
  split
  · simpa [List.length_dropLast] using hle
  · simp_all

theorem foldl_addToImageHistory_length (items : List InlineImageHistoryItem)
    (acc : List InlineImageHistoryItem) (hacc : acc.length ≤ inlineMaxHistory) :
    (items.foldl
      (fun h e => addToImageHistory h e.imageUrl e.prompt e.style e.size e.timestamp)
      acc).length ≤ inlineMaxHistory := by
  induction items generalizing acc with
  | nil => simpa using hacc
  | cons e rest ih =>
    exact ih _ (addToImageHistory_length hacc _ _ _ _ _)

/-! # Claim theorems -/

/-- C2: for every chat input, the computed reply is obtained by lowercasing the
input and linearly scanning a fixed ordered `(substring, response)` table:
`getEnhancedResponse` realizes the scan of `enhancedKeywordTable` with default
`enhancedDefaultResponse`, `getLocalResponse` realizes the scan of
`localResponses` with default `localDefaultResponse`, and the scan returns the
response mapped to the first key (in table order) contained in the lowercased
input, `none` when no keyword matches. -/
theorem chat_reply_is_first_match_of_ordered_table :
    (∀ message, getEnhancedResponse message =
      (scanResponses enhancedKeywordTable (jsToLower message)).getD enhancedDefaultResponse) ∧
    (∀ message, getLocalResponse message =
      (scanResponses localResponses (jsToLower message)).getD localDefaultResponse) ∧
    (∀ (table : List (String × String)) (s : String),
      scanResponses table s = (table.find? fun p => jsIncludes s p.1).map Prod.snd) := by
  refine ⟨?_, ?_, scanResponses_eq_find⟩
  · intro message
    rw [enhancedKeywordTable]
    cases h : scanResponses enhancedResponsesTable (jsToLower message) with
    | some v =>
      rw [scanResponses_append_some _ h]
      simp only [getEnhancedResponse, h, Option.getD_some]
    | none =>
      rw [scanResponses_append_none _ h]
      simp only [getEnhancedResponse, h]
      simp only [scanResponses]
      rw [getD_if3, getD_if3, getD_if3, getD_if3]
      simp
  · intro message
    cases h : scanResponses localResponses (jsToLower message) with
    | some v => simp only [getLocalResponse, h, Option.getD_some]
    | none => simp only [getLocalResponse, h, Option.getD_none]

/-- C10 counterexample: on the concrete message `"hello"` with the
`chat-messages` element present (the widget's normal configuration — `init`
itself renders the welcome message through the same path), `getBotResponse`
takes the `catch` branch and invokes `getLocalResponse`: the in-`try`
`addBotMessage` throws, because `processMessageText`'s emoji loop constructs
the invalid regex `':)'`. The claim's "error/fallback branch is unreachable"
and "`getLocalResponse` is never invoked" are both false here (and the
fallback `addBotMessage` rethrows, so not even the local reply is appended). -/
theorem bot_fallback_taken_counterexample :
    getBotResponse id ⟨true, false⟩ [] "hello" "t0" =
      BotResponseOutcome.fallbackTaken respHello
        (Except.error "SyntaxError: Invalid regular expression") := by
  rfl

/-- C10 corrected: the error/fallback branch of `getBotResponse` is
reachable — `fetchAIResponse` itself does return
`getEnhancedResponse message` from its first endpoint iteration and never
rejects, but the `try` block continues into `addBotMessage`, whose
`processMessageText` throws a `SyntaxError` on every message whenever a
`chat-messages` element is present (its emoji loop executes
`new RegExp(':)', 'g')`, an invalid pattern). So for every message the
`catch` branch runs, `getLocalResponse(message)` is invoked
(`useLocalFallback` being `true`), and the fallback `addBotMessage` throws
again, leaving the history without any appended reply. -/
theorem bot_fallback_branch_reachable :
    ∀ (formatLinks : String → String) (dom : ChatDom)
      (chatHistory : List ChatMessage) (message timestamp : String),
      dom.chatMessagesPresent = true →
      fetchAIResponse message = .ok (getEnhancedResponse message) ∧
      getBotResponse formatLinks dom chatHistory message timestamp =
        BotResponseOutcome.fallbackTaken (getLocalResponse message)
          (Except.error "SyntaxError: Invalid regular expression") := by
  intro formatLinks dom chatHistory message timestamp hdom
  have hbad : jsRegExpSyntaxBad ":)" = true := rfl
  have hpmt : ∀ t, processMessageText formatLinks chatEmojiEnabled t =
      .error "SyntaxError: Invalid regular expression" := by
    intro t
    simp [processMessageText, chatEmojiEnabled, emojiMap, replaceEmojiShortcodes, hbad]
  have herr : ∀ msg, addBotMessageRendered formatLinks dom chatHistory msg timestamp =
      .error "SyntaxError: Invalid regular expression" := by
    intro msg
    simp [addBotMessageRendered, hdom, hpmt, Except.map, Except.bind]
  refine ⟨rfl, ?_⟩
  have hfetch : fetchAIResponse message = .ok (getEnhancedResponse message) := rfl
  simp [getBotResponse, hfetch, herr, chatUseLocalFallback, Except.bind]

/-- C10 corrected, witness: the concrete message `"hi"` with the main chat
element present. -/
theorem bot_fallback_branch_reachable_witness :
    fetchAIResponse "hi" = .ok (getEnhancedResponse "hi") ∧
    getBotResponse id ⟨true, false⟩ [] "hi" "t1" =
      BotResponseOutcome.fallbackTaken (getLocalResponse "hi")
        (Except.error "SyntaxError: Invalid regular expression") :=
  bot_fallback_branch_reachable id ⟨true, false⟩ [] "hi" "t1" rfl

theorem toList_append (a b : String) : (a ++ b).toList = a.toList ++ b.toList := rfl

theorem mem_toList_append_left {c : Char} {a : String} (b : String)
    (h : c ∈ a.toList) : c ∈ (a ++ b).toList := by
  rw [toList_append]
  exact List.mem_append_left _ h

theorem mem_toList_append_right {c : Char} (a : String) {b : String}
    (h : c ∈ b.toList) : c ∈ (a ++ b).toList := by
  rw [toList_append]
  exact List.mem_append_right _ h

theorem saveChatHistory_eq_drop (l : List ChatMessage) :
    ∃ k, saveChatHistory l = l.drop k := by
  rw [saveChatHistory]
  split
  · exact ⟨l.length - chatMaxHistoryItems, rfl⟩
  · exact ⟨0, (List.drop_zero l).symm⟩

/-- C3: the chat history (cap 50) and both image-generation histories (cap 10)
never exceed their configured maximum length after an insertion completes, and
truncation evicts the oldest entries: the chat insert keeps a suffix of the
pushed list (dropping from the oldest, front end), the `ValleyImageGenerator`
insert keeps an initial segment of the unshifted list (dropping from the
oldest, back end), and the inline `addToImageHistory` stays within its cap
over any sequence of insertions started from the empty history. -/
theorem history_lists_respect_caps :
    (∀ (h : List ChatMessage) (m ts : String),
      (addUserMessage h m ts).length ≤ chatMaxHistoryItems ∧
      (addBotMessage h m ts).length ≤ chatMaxHistoryItems ∧
      (∃ k, addUserMessage h m ts = (h ++ [ChatMessage.mk "user" m ts]).drop k) ∧
      (∃ k, addBotMessage h m ts = (h ++ [ChatMessage.mk "assistant" m ts]).drop k)) ∧
    (∀ (h : List ImageHistoryEntry) (p u st ts : String),
      (addToHistory h p u st ts).length ≤ imageMaxHistoryItems ∧
      ∃ k, addToHistory h p u st ts = (ImageHistoryEntry.mk p u st ts :: h).take k) ∧
    (∀ (items : List InlineImageHistoryItem),
      (items.foldl
        (fun h e => addToImageHistory h e.imageUrl e.prompt e.style e.size e.timestamp)
        []).length ≤ inlineMaxHistory) ∧
    (∀ (h : List InlineImageHistoryItem) (u p st sz ts : String),
      ∃ k, addToImageHistory h u p st sz ts =
        (InlineImageHistoryItem.mk u p st sz ts :: h).take k) := by
  refine ⟨fun h m ts => ⟨saveChatHistory_length _, saveChatHistory_length _,
      saveChatHistory_eq_drop _, saveChatHistory_eq_drop _⟩,
    fun h p u st ts => ⟨?_, ?_⟩,
    fun items => foldl_addToImageHistory_length items [] (by simp),
    fun h u p st sz ts => ?_⟩
  · rw [addToHistory]
    split
    · simp [List.length_take]
    · simp_all
  · rw [addToHistory]
    split
    · exact ⟨imageMaxHistoryItems, rfl⟩
    · exact ⟨_, (List.take_length _).symm⟩
  · rw [addToImageHistory]
    split
    · exact ⟨_, List.dropLast_eq_take _⟩
    · exact ⟨_, (List.take_length _).symm⟩

/-- C4 counterexample: a new `ImageHistoryEntry` is not appended last —
inserting a second entry puts it at the front, not at the back, so the claim
"every new entry is appended last (oldest first, newest last)" fails on this
concrete input. -/
theorem image_history_append_last_counterexample :
    addToHistory [⟨"p1", "u1", "s1", "t1"⟩] "p2" "u2" "s2" "t2" ≠
      [ImageHistoryEntry.mk "p1" "u1" "s1" "t1", ImageHistoryEntry.mk "p2" "u2" "s2" "t2"] := by
  decide

/-- C4 amended: `addToHistory` prepends every new `ImageHistoryEntry` at the
front (`unshift`), so the stored array is ordered newest first, and truncation
at the cap keeps an initial segment, i.e. removes entries from the back end —
which holds the oldest entries. -/
theorem image_history_newest_first :
    (∀ (h : List ImageHistoryEntry) (p u st ts : String),
      (addToHistory h p u st ts).head? = some (ImageHistoryEntry.mk p u st ts)) ∧
    (∀ (h : List ImageHistoryEntry) (p u st ts : String),
      ∃ k, addToHistory h p u st ts = (ImageHistoryEntry.mk p u st ts :: h).take k) := by
  constructor
  · intro h p u st ts
    rw [addToHistory]
    split
    · rfl
    · rfl
  · intro h p u st ts
    rw [addToHistory]
    split
    · exact ⟨imageMaxHistoryItems, rfl⟩
    · exact ⟨_, (List.take_length _).symm⟩

/-- C5: seeding a string that `JSON.parse` rejects under the chat-history or
image-history storage key makes the corresponding load function return
normally with the empty history (the chat loader keeps the
constructor-initialized `[]`, the generator loader resets to `[]`). -/
theorem malformed_history_json_resets_empty :
    ∀ (parseChat : String → Option (List ChatMessage))
      (parseGen : String → Option (List ImageHistoryEntry)) (s : String),
      parseChat s = none → parseGen s = none →
      loadChatHistory parseChat (some s) [] = [] ∧
      loadGenerationHistory parseGen (some s) = [] := by
  intro parseChat parseGen s hc hg
  by_cases he : s = "" <;> simp [loadChatHistory, loadGenerationHistory, he, hc, hg]

/-- C5 witness: the always-failing parse on the concrete seed `"not-json"`. -/
theorem malformed_history_json_resets_empty_witness :
    loadChatHistory (fun _ => none) (some "not-json") [] = [] ∧
    loadGenerationHistory (fun _ => none) (some "not-json") = [] :=
  malformed_history_json_resets_empty (fun _ => none) (fun _ => none) "not-json" rfl rfl

/-- C7 counterexample (negation of the claim): there is no state with a
pending generation (`isGenerating = true` — the flag exactly brackets the
pending window) from which a second call to `generateImage` starts another
generation; every such call is rejected by validation or by the
`if (this.isGenerating) return` guard. -/
theorem generate_image_reentry_never_starts :
    ¬ ∃ (p : String) (s : GenWidgetState) (ep : String),
      s.isGenerating = true ∧ (generateImageEntry p s).2 = GenCallResult.started ep := by
  rintro ⟨p, s, ep, hgen, hres⟩
  rw [generateImageEntry] at hres
  by_cases h1 : jsTrim p = "" <;> by_cases h2 : (jsTrim p).length > maxPromptLength <;>
    simp [h1, h2, hgen] at hres

/-- C7 amended: `generateImage` guards against concurrent re-entry — while a
generation is pending (`isGenerating = true`), any further call leaves the
widget state unchanged and starts no generation (it is ignored by the guard,
or rejected earlier by prompt validation). -/
theorem generate_image_reentry_ignored :
    ∀ (p : String) (s : GenWidgetState), s.isGenerating = true →
      (generateImageEntry p s).1 = s ∧
      ∀ ep, (generateImageEntry p s).2 ≠ GenCallResult.started ep := by
  intro p s hgen
  rw [generateImageEntry]
  by_cases h1 : jsTrim p = "" <;> by_cases h2 : (jsTrim p).length > maxPromptLength <;>
    simp [h1, h2, hgen]

/-- C7 amended, witness: a concrete busy state and a valid prompt. -/
theorem generate_image_reentry_ignored_witness :
    (generateImageEntry "city" ⟨true, [], 0⟩).1 = (⟨true, [], 0⟩ : GenWidgetState) ∧
    (generateImageEntry "city" ⟨true, [], 0⟩).2 ≠ GenCallResult.started "city" :=
  ⟨(generate_image_reentry_ignored "city" ⟨true, [], 0⟩ rfl).1,
   (generate_image_reentry_ignored "city" ⟨true, [], 0⟩ rfl).2 "city"⟩

/-- C9: `generateImage` validates its input before doing anything observable —
for an empty (all-whitespace) prompt and for a prompt whose trimmed value
exceeds `maxPromptLength`, it returns after `showError`, leaving the
generation history, the analytics counter and the `isGenerating` flag all
unchanged, and no generation is started. -/
theorem invalid_prompt_rejected_without_effects :
    ∀ (p : String) (s : GenWidgetState),
      jsTrim p = "" ∨ (jsTrim p).length > maxPromptLength →
      (generateImageEntry p s).1 = s ∧
      (∃ m, (generateImageEntry p s).2 = GenCallResult.errorShown m) ∧
      ∀ ep, (generateImageEntry p s).2 ≠ GenCallResult.started ep := by
  intro p s h
  rw [generateImageEntry]
  rcases h with h | h
  · simp [h]
  · have h1 : ¬ jsTrim p = "" := by
      intro he
      rw [he] at h
      simp [maxPromptLength] at h
    simp [h1, h]

/-- C9 witness: the all-whitespace prompt on an idle widget state. -/
theorem invalid_prompt_rejected_without_effects_witness :
    (generateImageEntry "   " ⟨false, [], 0⟩).1 = (⟨false, [], 0⟩ : GenWidgetState) ∧
    (∃ m, (generateImageEntry "   " ⟨false, [], 0⟩).2 = GenCallResult.errorShown m) ∧
    ∀ ep, (generateImageEntry "   " ⟨false, [], 0⟩).2 ≠ GenCallResult.started ep :=
  invalid_prompt_rejected_without_effects "   " ⟨false, [], 0⟩ (Or.inl (by decide))

/-- C8 counterexample: `blockUser` persists `\x7bblocked: true, expiry\x7d`
with a strictly future expiry, yet a `SecurityManager` freshly constructed and
initialized on reload with exactly that record still in storage is not
blocked — initialization does not restore the blocked state. -/
theorem security_block_not_restored_counterexample :
    (blockUser 0 securityInitialState).2 = SecurityBlockRecord.mk true blockDuration ∧
    0 < (blockUser 0 securityInitialState).2.expiry ∧
    (securityManagerOnLoad (some (blockUser 0 securityInitialState).2)).isBlocked = false := by
  exact ⟨rfl, by decide, rfl⟩

/-- C8 amended: `blockUser` does set the in-memory blocked flag and persists
the record with expiry `now + blockDuration`, but no initialization code reads
the persisted key, so after any reload the manager starts from the
constructor state with `isBlocked = false` — a reload clears the block. -/
theorem security_block_persisted_but_not_reloaded :
    ∀ (now : Nat) (s : SecurityState),
      ((blockUser now s).1).isBlocked = true ∧
      (blockUser now s).2 = SecurityBlockRecord.mk true (now + blockDuration) ∧
      ∀ stored, securityManagerOnLoad stored = securityInitialState := by
  intro now s
  exact ⟨rfl, rfl, fun _ => rfl⟩

/-- C1 (code bug): when every endpoint's `try` body fails, `fetchGeneratedImage`
rejects with `'All image generation endpoints failed'` even though
`config.api.useLocalFallback` is `true` — the canvas fallback is dead code,
because the guard that would return `generateLocalImage` requires an endpoint
named `'local'` and the configured endpoint list contains none. -/
theorem all_endpoints_failing_rejects_despite_fallback :
    ∀ (prompt : String) (w ht ts : Nat) (localImg : String),
      fetchGeneratedImage (fun _ => true) prompt w ht ts localImg =
        .error "All image generation endpoints failed" ∧
      imageUseLocalFallback = true ∧
      ∀ e ∈ imageApiEndpoints, ¬ e.name = "local" := by
  intro prompt w ht ts localImg
  exact ⟨rfl, rfl, by decide⟩

/-- C6: for a positive width and height, the URL built by the `pollinations`
branch is exactly the base endpoint URL, the URL-encoded prompt, and the query
parameters `width`, `height`, `nologo=true` and `t=<timestamp>` in that
order; and the `pollinations` endpoint is the first one tried. -/
theorem pollinations_url_layout :
    ∀ (prompt : String) (w ht ts : Nat), 0 < w → 0 < ht →
      pollinationsRequestUrl pollinationsEndpoint prompt w ht ts =
        "https://image.pollinations.ai/prompt/" ++ encodeURIComponent prompt ++
          "?width=" ++ toString w ++ "&height=" ++ toString ht ++
          "&nologo=true" ++ "&t=" ++ toString ts ∧
      (sortApiEndpoints imageApiEndpoints).head? = some pollinationsEndpoint := by
  intro prompt w ht ts hw hh
  refine ⟨?_, by decide⟩
  have hw' : w ≠ 0 := by omega
  have hh' : ht ≠ 0 := by omega
  have hmem : Char.ofNat 63 ∈
      (pollinationsEndpoint.url ++ encodeURIComponent prompt ++ "?width=" ++ toString w ++
        "&height=" ++ toString ht).toList :=
    mem_toList_append_left _ (mem_toList_append_left _ (mem_toList_append_left _
      (mem_toList_append_right _ (by decide))))
  have hq1 := jsIncludes_questionmark hmem
  have hq2 := jsIncludes_questionmark
    (mem_toList_append_left ("&nologo=true" : String) hmem)
  have hcond : w ≠ 0 ∧ ht ≠ 0 := ⟨hw', hh'⟩
  have hn : pollinationsEndpoint.paramsNologo = true := rfl
  simp only [pollinationsRequestUrl]
  rw [if_pos hcond, if_pos hn, if_pos hq1, if_pos hq2]
  rfl

/-- C6 witness: the concrete prompt `"x"` at the default 512×512 dimensions. -/
theorem pollinations_url_layout_witness :
    pollinationsRequestUrl pollinationsEndpoint "x" 512 512 7 =
      "https://image.pollinations.ai/prompt/" ++ encodeURIComponent "x" ++
        "?width=" ++ toString 512 ++ "&height=" ++ toString 512 ++
        "&nologo=true" ++ "&t=" ++ toString 7 ∧
    (sortApiEndpoints imageApiEndpoints).head? = some pollinationsEndpoint :=
  pollinations_url_layout "x" 512 512 7 (by decide) (by decide)

end Valleytainment
